import Mathlib

/-!
Shallow embedding of `src/charge_indicator.c` (ZMK charge-indicator feature).

Modelling conventions:
- Each call to `gpio_pin_set` through `led_red` / `led_green` / `led_blue` is
  recorded as one `GpioWrite` event; a function's effect on the output lines is
  its trace, a `List GpioWrite`, in program order.
- The compile-time Kconfig switches (`CONFIG_CHG_POLICY`,
  `CONFIG_CHG_BATTERY_LEVEL_BASED_COLOR`, the color codes and thresholds) are
  gathered in a `Config` record; the `#if` blocks of the source become `if`s on
  the corresponding fields.
- The preprocessor condition `CHARGE_INDICATOR_DISABLE_LED` (LED aliases absent
  from the devicetree) is the boolean parameter `ledPresent` (capability
  present/absent); when it is `false` every LED helper compiles to nothing, so
  the trace is empty.
- The shared atomic flag `is_charging` is the single field of `SysState`.
- `zmk_battery_state_of_charge()` returns a `uint8_t`; its value is the `Nat`
  parameter `battery_pct` (the uint8 domain is `battery_pct < 256`).
- The GPIO raw level returned by `gpio_pin_get_raw` is an `Int` parameter.
-/

namespace ChargeIndicator

/-- One write to a single LED output line, as performed by the helpers
`led_red(on)`, `led_green(on)`, `led_blue(on)` in the source. -/
inductive GpioWrite where
  | red (lvl : Bool)
  | green (lvl : Bool)
  | blue (lvl : Bool)
deriving DecidableEq, Repr

/-- Commanded state of the three LED output lines (true = LED on). -/
structure Channels where
  red : Bool
  green : Bool
  blue : Bool
deriving DecidableEq, Repr

/-- Effect of one `GpioWrite` on the commanded line state. -/
def applyWrite (st : Channels) (w : GpioWrite) : Channels :=
  match w with
  | .red lvl => { st with red := lvl }
  | .green lvl => { st with green := lvl }
  | .blue lvl => { st with blue := lvl }

/-- Replay a write trace over an initial commanded line state. -/
def runWrites (st : Channels) (ws : List GpioWrite) : Channels :=
  ws.foldl applyWrite st

/-- Build-time configuration values of the module (Kconfig symbols of the
source): `forceOff` is `CONFIG_CHG_POLICY`, `batteryLevelColoring` is
`CONFIG_CHG_BATTERY_LEVEL_BASED_COLOR`, `fixedColor` is `CONFIG_CHG_COLOR`,
the five color fields are `CONFIG_CHG_BATTERY_COLOR_*`, and the three
percentage fields are `CONFIG_CHG_BATTERY_LEVEL_*`. -/
structure Config where
  forceOff : Bool
  batteryLevelColoring : Bool
  fixedColor : Int
  colorCritical : Int
  colorLow : Int
  colorMedium : Int
  colorHigh : Int
  colorMissing : Int
  criticalPct : Int
  lowPct : Int
  highPct : Int
deriving DecidableEq, Repr

/-- Embedding of `apply_color_code(int color)` as the trace of its three LED
writes; the `switch` is a first-match chain over the eight codes with the
red-only fallback in the `default` arm. -/
def apply_color_code (color : Int) : List GpioWrite :=
  if color = 0 then [.red false, .green false, .blue false]
  else if color = 1 then [.red true, .green false, .blue false]
  else if color = 2 then [.red false, .green true, .blue false]
  else if color = 3 then [.red true, .green true, .blue false]
  else if color = 4 then [.red false, .green false, .blue true]
  else if color = 5 then [.red true, .green false, .blue true]
  else if color = 6 then [.red false, .green true, .blue true]
  else if color = 7 then [.red true, .green true, .blue true]
  else [.red true, .green false, .blue false]

/-- Embedding of `get_battery_level_color(void)`. The source reads
`uint8_t battery_pct = zmk_battery_state_of_charge();` and compares it (after
integer promotion) against the Kconfig thresholds; `battery_pct` here is the
value of that `uint8_t` variable. The `battery_pct < 0` half of the range
test is kept as in the source (it is vacuous on an unsigned value). -/
def get_battery_level_color (cfg : Config) (battery_pct : Nat) : Int :=
  if (battery_pct : Int) < 0 ∨ (battery_pct : Int) > 100 then cfg.colorMissing
  else if (battery_pct : Int) < cfg.criticalPct then cfg.colorCritical
  else if (battery_pct : Int) < cfg.lowPct then cfg.colorLow
  else if (battery_pct : Int) < cfg.highPct then cfg.colorMedium
  else cfg.colorHigh

/-- Value of an integer state-of-charge once stored into the `uint8_t`
variable `battery_pct` (C unsigned conversion, reduction modulo 256). -/
def toUInt8Nat (x : Int) : Nat := (x % 256).toNat

/-- Embedding of `apply_charging_color(bool charging)` as its LED write trace.
`ledPresent = false` is the `CHARGE_INDICATOR_DISABLE_LED` build, where the
whole body is `ARG_UNUSED(charging)` and nothing is written. -/
def apply_charging_color (ledPresent : Bool) (cfg : Config) (battery_pct : Nat)
    (charging : Bool) : List GpioWrite :=
  if ledPresent then
    if charging then
      if cfg.forceOff then
        [.red false, .green false, .blue false]
      else if cfg.batteryLevelColoring then
        apply_color_code (get_battery_level_color cfg battery_pct)
      else
        apply_color_code cfg.fixedColor
    else
      [.red false, .green false, .blue false]
  else []

/-- Shared module state: the atomic flag `is_charging`. -/
structure SysState where
  is_charging : Bool
deriving DecidableEq, Repr

/-- Embedding of `read_charging(void)`: raw level 0 means charging. -/
def read_charging (raw : Int) : Bool := raw == 0

/-- Embedding of the IRQ handler `chg_handler`: after the debounce sleep it
reads the raw level, stores the debounced flag with `atomic_set`, and applies
the charging color. Returns the new state and the LED write trace. -/
def chg_handler (ledPresent : Bool) (cfg : Config) (battery_pct : Nat)
    (raw : Int) (st : SysState) : SysState × List GpioWrite :=
  let charging := read_charging raw
  ({ st with is_charging := charging },
   apply_charging_color ledPresent cfg battery_pct charging)

/-- Payload of a `zmk_battery_state_changed` event. -/
structure zmk_battery_state_changed where
  state_of_charge : Nat
deriving DecidableEq, Repr

/-- Zephyr errno code ENOTSUP (the exact numeral is immaterial; the listener
returns its negation, a nonzero error code). -/
def ENOTSUP : Int := 134

/-- Result of one listener invocation: the state after the call, the LED
write trace, and the integer return code handed to the event manager. -/
structure ListenerResult where
  st : SysState
  writes : List GpioWrite
  ret : Int
deriving DecidableEq, Repr

/-- Embedding of `battery_state_changed_listener(const zmk_event_t *eh)`.
`ev = none` models `as_zmk_battery_state_changed(eh)` returning NULL (the
event is not a battery-state-changed event). `battery_pct` is the current
value `zmk_battery_state_of_charge()` would return during the re-apply. -/
def battery_state_changed_listener (ledPresent : Bool) (cfg : Config)
    (battery_pct : Nat) (ev : Option zmk_battery_state_changed)
    (st : SysState) : ListenerResult :=
  match ev with
  | none => ⟨st, [], -ENOTSUP⟩
  | some _ =>
    if st.is_charging then
      ⟨st, apply_charging_color ledPresent cfg battery_pct true, 0⟩
    else
      ⟨st, [], 0⟩

/-- One iteration of the maintenance loop body in `charging_maint_task`:
while charging it re-applies the charging color (then sleeps 150 ms);
otherwise it only sleeps 1 s and writes nothing. -/
def charging_maint_iter (ledPresent : Bool) (cfg : Config) (battery_pct : Nat)
    (st : SysState) : SysState × List GpioWrite :=
  if st.is_charging then
    (st, apply_charging_color ledPresent cfg battery_pct true)
  else
    (st, [])

/-- Finitely many consecutive iterations of `charging_maint_task`, one per
entry of `pcts` (the state-of-charge visible at each iteration), with the
accumulated LED write trace. -/
def charging_maint_run (ledPresent : Bool) (cfg : Config) (pcts : List Nat)
    (st : SysState) : SysState × List GpioWrite :=
  match pcts with
  | [] => (st, [])
  | p :: rest =>
    let r1 := charging_maint_iter ledPresent cfg p st
    let r2 := charging_maint_run ledPresent cfg rest r1.1
    (r2.1, r1.2 ++ r2.2)

/-- Embedding of the initial-state determination in `charge_indicator_init`:
two raw reads 10 ms apart, `charging_init = (c1 && c2)`, stored with
`atomic_set` and applied immediately. -/
def charge_indicator_init (ledPresent : Bool) (cfg : Config) (battery_pct : Nat)
    (raw1 raw2 : Int) (st : SysState) : SysState × List GpioWrite :=
  let c1 := read_charging raw1
  let c2 := read_charging raw2
  let charging_init := c1 && c2
  ({ st with is_charging := charging_init },
   apply_charging_color ledPresent cfg battery_pct charging_init)

/-- Example configuration of the spec (thresholds 10/30/80, threshold colors
critical=1, low=3, medium=2, high=7, missing=4) with battery-level coloring
enabled. -/
def exampleCfg : Config :=
  { forceOff := false, batteryLevelColoring := true, fixedColor := 5,
    colorCritical := 1, colorLow := 3, colorMedium := 2, colorHigh := 7,
    colorMissing := 4, criticalPct := 10, lowPct := 30, highPct := 80 }

/-- Configuration with battery-level coloring disabled and fixed color 5. -/
def fixedCfg : Config :=
  { forceOff := false, batteryLevelColoring := false, fixedColor := 5,
    colorCritical := 1, colorLow := 3, colorMedium := 2, colorHigh := 7,
    colorMissing := 4, criticalPct := 10, lowPct := 30, highPct := 80 }

/-- Configuration with the force-off-while-charging policy enabled. -/
def forceOffCfg : Config :=
  { fixedCfg with forceOff := true }

/-- Replaying a trace of one write per channel fully determines the lines. -/
theorem runWrites_three (st : Channels) (r g b : Bool) :
    runWrites st [.red r, .green g, .blue b] = ⟨r, g, b⟩ := rfl

/-- With the LED capability absent, `apply_charging_color` writes nothing. -/
theorem apply_charging_color_absent (cfg : Config) (pct : Nat) (b : Bool) :
    apply_charging_color false cfg pct b = [] := rfl

/-- One maintenance iteration never changes the shared state. -/
theorem charging_maint_iter_state (ledPresent : Bool) (cfg : Config)
    (pct : Nat) (st : SysState) :
    (charging_maint_iter ledPresent cfg pct st).1 = st := by
  unfold charging_maint_iter
  split <;> rfl

/-- A finite maintenance run never changes the shared state. -/
theorem charging_maint_run_state (ledPresent : Bool) (cfg : Config)
    (pcts : List Nat) (st : SysState) :
    (charging_maint_run ledPresent cfg pcts st).1 = st := by
  induction pcts with
  | nil => rfl
  | cons p rest ih =>
    simp only [charging_maint_run, charging_maint_iter_state, ih]

/-- While the charging flag is false, a finite maintenance run performs no
LED write at all. -/
theorem charging_maint_run_idle_writes (ledPresent : Bool) (cfg : Config)
    (pcts : List Nat) (st : SysState) (h : st.is_charging = false) :
    (charging_maint_run ledPresent cfg pcts st).2 = [] := by
  induction pcts with
  | nil => rfl
  | cons p rest ih =>
    simp only [charging_maint_run, charging_maint_iter, h, if_false,
      Bool.false_eq_true, List.nil_append]
    exact ih

/-- With the LED capability absent, a finite maintenance run performs no LED
write, whatever the charging flag does. -/
theorem charging_maint_run_absent_writes (cfg : Config) (pcts : List Nat)
    (st : SysState) :
    (charging_maint_run false cfg pcts st).2 = [] := by
  induction pcts with
  | nil => rfl
  | cons p rest ih =>
    simp only [charging_maint_run, charging_maint_iter,
      apply_charging_color_absent]
    split <;> simpa using ih

/-- C1: with battery-level coloring enabled, the color selected from the
uint8 state-of-charge follows the spec's strict threshold order (outside
[0,100] gives missing, then critical, low, medium, high with exclusive upper
bounds, first match wins); at the example thresholds (10, 30, 80), pct 5
gives critical, 29 low, 79 medium, 90 high, 150 missing, and -1 read as the
unsigned 8-bit value 255 gives missing. -/
theorem C1_battery_level_color_thresholds (cfg : Config) (pct : Nat)
    (hu : pct < 256) :
    (100 < pct → get_battery_level_color cfg pct = cfg.colorMissing) ∧
    (pct ≤ 100 → (pct : Int) < cfg.criticalPct →
      get_battery_level_color cfg pct = cfg.colorCritical) ∧
    (pct ≤ 100 → cfg.criticalPct ≤ (pct : Int) → (pct : Int) < cfg.lowPct →
      get_battery_level_color cfg pct = cfg.colorLow) ∧
    (pct ≤ 100 → cfg.criticalPct ≤ (pct : Int) → cfg.lowPct ≤ (pct : Int) →
      (pct : Int) < cfg.highPct →
      get_battery_level_color cfg pct = cfg.colorMedium) ∧
    (pct ≤ 100 → cfg.criticalPct ≤ (pct : Int) → cfg.lowPct ≤ (pct : Int) →
      cfg.highPct ≤ (pct : Int) →
      get_battery_level_color cfg pct = cfg.colorHigh) ∧
    get_battery_level_color exampleCfg 5 = exampleCfg.colorCritical ∧
    get_battery_level_color exampleCfg 29 = exampleCfg.colorLow ∧
    get_battery_level_color exampleCfg 79 = exampleCfg.colorMedium ∧
    get_battery_level_color exampleCfg 90 = exampleCfg.colorHigh ∧
    get_battery_level_color exampleCfg 150 = exampleCfg.colorMissing ∧
    get_battery_level_color exampleCfg (toUInt8Nat (-1))
      = exampleCfg.colorMissing := by
  refine ⟨?_, ?_, ?_, ?_, ?_,
    by decide, by decide, by decide, by decide, by decide, by decide⟩
  · intro h
    unfold get_battery_level_color
    split_ifs <;> first | rfl | omega
  · intro h h1
    unfold get_battery_level_color
    split_ifs <;> first | rfl | omega
  · intro h h1 h2
    unfold get_battery_level_color
    split_ifs <;> first | rfl | omega
  · intro h h1 h2 h3
    unfold get_battery_level_color
    split_ifs <;> first | rfl | omega
  · intro h h1 h2 h3
    unfold get_battery_level_color
    split_ifs <;> first | rfl | omega

/-- C1 witness: the threshold theorem applied at the example configuration
with pct = 5 gives the critical color. -/
theorem C1_battery_level_color_thresholds_witness :
    get_battery_level_color exampleCfg 5 = exampleCfg.colorCritical :=
  (C1_battery_level_color_thresholds exampleCfg 5 (by decide)).2.1
    (by decide) (by decide)

/-- C2 counterexample: with the charging flag true and battery-level coloring
disabled, the battery-event handler still writes the fixed color to the LED
lines, so it is not a no-op as the claim states. -/
theorem C2_listener_writes_cex :
    (battery_state_changed_listener true fixedCfg 50 (some ⟨50⟩)
      ⟨true⟩).writes ≠ [] := by decide

/-- C2 (amended): the battery-event handler performs no LED write whenever
the charging flag is false; whenever the flag is true it re-applies the
charging color, regardless of whether battery-level coloring is enabled. -/
theorem C2_listener_noop_iff_not_charging (ledPresent : Bool) (cfg : Config)
    (pct : Nat) (ev : zmk_battery_state_changed) (st : SysState) :
    (st.is_charging = false →
      (battery_state_changed_listener ledPresent cfg pct (some ev) st).writes
        = []) ∧
    (st.is_charging = true →
      (battery_state_changed_listener ledPresent cfg pct (some ev) st).writes
        = apply_charging_color ledPresent cfg pct true) := by
  unfold battery_state_changed_listener
  constructor <;> intro h <;> simp [h]

/-- C2 witness: with the charging flag false the handler writes nothing. -/
theorem C2_listener_noop_iff_not_charging_witness :
    (battery_state_changed_listener true fixedCfg 50 (some ⟨50⟩)
      ⟨false⟩).writes = [] :=
  (C2_listener_noop_iff_not_charging true fixedCfg 50 ⟨50⟩ ⟨false⟩).1 rfl

/-- C3 counterexample: on an inbound event that is not a battery-state-changed
event the listener returns -ENOTSUP, a nonzero error code, not success. -/
theorem C3_listener_error_cex :
    (battery_state_changed_listener true fixedCfg 50 none ⟨false⟩).ret
      ≠ 0 := by decide

/-- C3 (amended): the listener returns success (0) for every recognized
battery-state-changed event; for an unrecognized event it performs no LED
write and no state change, but returns the error code -ENOTSUP instead of
success. -/
theorem C3_listener_return_codes (ledPresent : Bool) (cfg : Config)
    (pct : Nat) (ev : zmk_battery_state_changed) (st : SysState) :
    (battery_state_changed_listener ledPresent cfg pct (some ev) st).ret = 0 ∧
    (battery_state_changed_listener ledPresent cfg pct none st).ret
      = -ENOTSUP ∧
    (battery_state_changed_listener ledPresent cfg pct none st).writes = [] ∧
    (battery_state_changed_listener ledPresent cfg pct none st).st = st := by
  refine ⟨?_, rfl, rfl, rfl⟩
  simp only [battery_state_changed_listener]
  split <;> rfl

/-- C4: for every code in [0,7] the applied trace drives the channels as the
bit-unpacking bit0=red, bit1=green, bit2=blue, and every code outside [0,7]
produces the same trace as code 1 (red only). -/
theorem C4_color_code_bits (c : Int) (st : Channels) :
    (0 ≤ c → c ≤ 7 → runWrites st (apply_color_code c)
      = ⟨c % 2 == 1, c / 2 % 2 == 1, c / 4 % 2 == 1⟩) ∧
    ((c < 0 ∨ 7 < c) → apply_color_code c = apply_color_code 1) := by
  constructor
  · intro h0 h7
    interval_cases c <;> rfl
  · intro h
    have hone : apply_color_code 1 = [.red true, .green false, .blue false] := by
      decide
    rw [hone]
    unfold apply_color_code
    split_ifs <;> first | rfl | omega

/-- C4 witness: code 5 drives red and blue on, green off. -/
theorem C4_color_code_bits_witness :
    runWrites ⟨false, false, false⟩ (apply_color_code 5)
      = ⟨true, false, true⟩ :=
  (C4_color_code_bits 5 ⟨false, false, false⟩).1 (by decide) (by decide)

/-- C5: the bootstrap initial charging state equals the conjunction of the
two debounce samples; it is true exactly when both samples read charging, so
any disagreement yields not-charging. -/
theorem C5_init_debounce_and (ledPresent : Bool) (cfg : Config) (pct : Nat)
    (raw1 raw2 : Int) (st : SysState) :
    (charge_indicator_init ledPresent cfg pct raw1 raw2 st).1.is_charging
      = (read_charging raw1 && read_charging raw2) ∧
    ((charge_indicator_init ledPresent cfg pct raw1 raw2 st).1.is_charging
        = true ↔
      read_charging raw1 = true ∧ read_charging raw2 = true) := by
  refine ⟨rfl, ?_⟩
  simp [charge_indicator_init, Bool.and_eq_true]

/-- C6: when charging with the force-off policy enabled, the applied trace
drives all three channels off, for every fixed color, threshold and coloring
setting. -/
theorem C6_force_off_all_off (cfg : Config) (pct : Nat)
    (h : cfg.forceOff = true) :
    apply_charging_color true cfg pct true
      = [.red false, .green false, .blue false] := by
  simp [apply_charging_color, h]

/-- C6 witness: the force-off configuration at pct 50 drives all off. -/
theorem C6_force_off_all_off_witness :
    apply_charging_color true forceOffCfg 50 true
      = [.red false, .green false, .blue false] :=
  C6_force_off_all_off forceOffCfg 50 rfl

/-- C7: a debounced not-charging edge makes the handler drive all three
channels off exactly once (its whole trace is that single all-off command),
set the flag to false, and from that state every finite run of the
maintenance loop performs no LED write. -/
theorem C7_off_once_then_idle (cfg : Config) (pct : Nat) (raw : Int)
    (st : SysState) (h : raw ≠ 0) :
    (chg_handler true cfg pct raw st).2
      = [.red false, .green false, .blue false] ∧
    (chg_handler true cfg pct raw st).1.is_charging = false ∧
    (∀ (led2 : Bool) (cfg2 : Config) (pcts : List Nat),
      (charging_maint_run led2 cfg2 pcts (chg_handler true cfg pct raw st).1).2
        = []) := by
  have hrc : read_charging raw = false := by
    simpa [read_charging] using h
  refine ⟨?_, ?_, ?_⟩
  · simp [chg_handler, apply_charging_color, hrc]
  · simp [chg_handler, hrc]
  · intro led2 cfg2 pcts
    apply charging_maint_run_idle_writes
    simp [chg_handler, hrc]

/-- C7 witness: raw level 1 (not charging) gives the single all-off trace. -/
theorem C7_off_once_then_idle_witness :
    (chg_handler true fixedCfg 50 1 ⟨true⟩).2
      = [.red false, .green false, .blue false] :=
  (C7_off_once_then_idle fixedCfg 50 1 ⟨true⟩ (by decide)).1

/-- C8: with the LED capability absent every call that would drive the
channels has an empty trace and no error, while charge detection still
works: the edge handler and the bootstrap still update the charging flag,
which stays observable in the store. -/
theorem C8_capability_absent (cfg : Config) (pct : Nat) (b : Bool)
    (raw raw1 raw2 : Int) (st : SysState)
    (ev : Option zmk_battery_state_changed) (pcts : List Nat) :
    apply_charging_color false cfg pct b = [] ∧
    (chg_handler false cfg pct raw st).2 = [] ∧
    (chg_handler false cfg pct raw st).1.is_charging = read_charging raw ∧
    (battery_state_changed_listener false cfg pct ev st).writes = [] ∧
    (charging_maint_run false cfg pcts st).2 = [] ∧
    (charge_indicator_init false cfg pct raw1 raw2 st).2 = [] ∧
    (charge_indicator_init false cfg pct raw1 raw2 st).1.is_charging
      = (read_charging raw1 && read_charging raw2) := by
  refine ⟨rfl, rfl, rfl, ?_,
    charging_maint_run_absent_writes cfg pcts st, rfl, rfl⟩
  cases ev with
  | none => rfl
  | some e =>
    simp only [battery_state_changed_listener]
    split <;> rfl

/-- C9: the charging flag has a single writer: the edge handler and the
bootstrap set it (to the debounced sample and to the two-sample conjunction);
the battery-event listener and the maintenance task leave it unchanged. -/
theorem C9_flag_single_writer (ledPresent : Bool) (cfg : Config) (pct : Nat)
    (ev : Option zmk_battery_state_changed) (pcts : List Nat)
    (raw raw1 raw2 : Int) (st : SysState) :
    (battery_state_changed_listener ledPresent cfg pct ev st).st = st ∧
    (charging_maint_iter ledPresent cfg pct st).1 = st ∧
    (charging_maint_run ledPresent cfg pcts st).1 = st ∧
    (chg_handler ledPresent cfg pct raw st).1.is_charging
      = read_charging raw ∧
    (charge_indicator_init ledPresent cfg pct raw1 raw2 st).1.is_charging
      = (read_charging raw1 && read_charging raw2) := by
  refine ⟨?_, charging_maint_iter_state ledPresent cfg pct st,
    charging_maint_run_state ledPresent cfg pcts st, rfl, rfl⟩
  cases ev with
  | none => rfl
  | some e =>
    simp only [battery_state_changed_listener]
    split <;> rfl

/-- C10: for every integer color code, exactly one arm of the switch runs and
it writes all three channels, so the resulting line state does not depend on
the previous line state. -/
theorem C10_all_channels_written (c : Int) (st1 st2 : Channels) :
    (∃ r g b, apply_color_code c = [.red r, .green g, .blue b]) ∧
    runWrites st1 (apply_color_code c) = runWrites st2 (apply_color_code c) := by
  unfold apply_color_code
  split_ifs <;> exact ⟨⟨_, _, _, rfl⟩, rfl⟩

end ChargeIndicator
